import Mathlib

/-!
Verification of the orchestration core of the multi-agent RAG notebook
`src/Rag-Agentica.ipynb` (repository `matheuskid/multi-agent-rag-km`).

The notebook builds a langgraph `StateGraph` over a `GraphState` with a
router node that classifies a question into domains, three domain
specialist nodes (`produtos`, `processos`, `rh`) and a `combina` node.
The external collaborators (the Groq chat model behind `llm.invoke`,
Python's `json.loads`, and the Chroma retrievers) are parameters of the
embedding (`Env`); the repository's own functions (`router`,
`agente_produtos`, `agente_processos`, `agente_rh`, `combina`, the
prompt templates and the graph wiring) are translated directly from the
notebook cells.  Fallible Python evaluation is embedded with `Except`:
a raised exception is an `Except.error`.
-/

/-- Python values produced by `json.loads`: JSON nulls, booleans,
numbers, strings, arrays and objects. -/
inductive Json
  | null
  | bool (b : Bool)
  | num (n : Int)
  | str (s : String)
  | arr (xs : List Json)
  | obj (kvs : List (String × Json))

/-- Python exceptions that the embedded notebook code can raise:
`KeyError` (subscripting a dict without the key), `TypeError`
(subscripting a non-dict with a string key, or iterating a non-list
route value) and `NameError` (evaluating an unbound free name). -/
inductive PyErr
  | keyError (k : String)
  | typeError
  | nameError (n : String)

/-- The typed run state of the graph, from the notebook cell
`class GraphState(TypedDict): question: str; respostas: List[str]; answer: str`. -/
structure GraphState where
  question : String
  respostas : List String
  answer : String

/-- The declared field names of `GraphState`, in declaration order,
from the same notebook cell. -/
def graphStateFields : List String :=
  ["question", "respostas", "answer"]

/-- The external collaborators of the notebook code:
`llm` is `llm.invoke([HumanMessage(content=prompt)]).content`
(a prompt-to-text function, deterministic stub in the theorems below);
`json_loads` is Python's `json.loads` (errors exactly on strings that
are not valid JSON, i.e. on `json.JSONDecodeError`);
`get_retriever` is the value of the free name `get_retriever` at module
scope, if any, as a function from the query to the list of
`page_content` strings of the documents returned by
`.get_relevant_documents(query)`.  In the notebook that name is never
bound at module scope (it exists only as a method of
`VectorStoreManager`), which is recorded by `moduleGetRetriever`. -/
structure Env where
  llm : String → String
  json_loads : String → Except Unit Json
  get_retriever : Option (String → List String)

/-- The module-scope binding of the free name `get_retriever` in the
notebook: there is none.  The names bound at module scope are listed in
`moduleScopeNames`; `get_retriever` only exists as a method of the
class `VectorStoreManager` (see `vectorStoreManagerMethods`), so the
call `get_retriever()` inside the specialist agents raises `NameError`. -/
def moduleGetRetriever : Option (String → List String) := none

/-- Every name bound at module scope by the notebook cells, in order of
first binding: the imports, the `VectorStoreManager` class, the three
managers, the three retrievers, the llm, the state class, the prompts,
the node functions, the graph objects and the final test cell. -/
def moduleScopeNames : List String :=
  ["os", "Chroma", "PyPDFDirectoryLoader", "RecursiveCharacterTextSplitter",
   "MistralAIEmbeddings", "ChatGroq", "RetrievalQA", "PromptTemplate",
   "TypedDict", "List", "Dict", "Document", "START", "StateGraph", "END",
   "HumanMessage", "load_dotenv", "VectorStoreManager", "produto_manager",
   "processos_manager", "rh_manager", "retriever_produto",
   "retriever_processos", "retriever_rh", "llm", "GraphState",
   "prompt_orquestrador", "json", "router", "prompt_agente_produtos",
   "agente_processos", "agente_produtos", "agente_rh", "prompt_combina",
   "combina", "graph", "graph_compilado", "Image", "display", "pergunta",
   "estado_inicial", "resultado"]

/-- The methods of the class `VectorStoreManager`, from its class body. -/
def vectorStoreManagerMethods : List String :=
  ["__init__", "load_and_process_documents", "store_embeddings", "get_retriever"]

/-- The router's classification prompt, from the notebook's
`prompt_orquestrador = PromptTemplate(...)`: `format(question=...)`
substitutes the question into the single `\x7bquestion\x7d` placeholder and
renders the escaped double braces around the JSON example as single
braces. -/
def prompt_orquestrador (question : String) : String :=
  "\nVocê é um agente que recebe uma pergunta e decide quais dos seguintes domínios ela envolve:\n\nDomínios disponíveis:\n- produtos: dúvidas sobre produtos ou serviços, características, preços, disponibilidade, cadastro de produtos, etc.\n- processos: dúvidas sobre processos internos, fluxos, processos operacionais, instruções, etc.\n- rh: dúvidas sobre folha de pagamento, benefícios, férias, horários, etc.\n\nDada a pergunta abaixo, retorne uma lista de domínios relevantes no seguinte formato JSON:\n\x7b\"dominios\": [\"produtos\", \"processos\"]\x7d\n\nPergunta:\n"
    ++ question ++ "\n"

/-- The first assignment to `prompt_agente_produtos` in the notebook
(the template whose text addresses the produtos documentation),
rendered by `format(question=..., context=...)`. -/
def prompt_agente_produtos_def1 (question context : String) : String :=
  "\nVocê é um especialista na documentação de produtos da empresa. \nUtilize exclusivamente as informações fornecidas no contexto abaixo para responder à pergunta.\n\nContexto:\n"
    ++ context
    ++ "\n\nPergunta:\n"
    ++ question
    ++ "\n\nSe a resposta não estiver no contexto, diga \"Informação não encontrada no contexto.\".\nResposta:\n"

/-- The second assignment to `prompt_agente_produtos` (the comment in
the notebook labels it the processos agent prompt, but it is assigned
to the same name `prompt_agente_produtos`, overwriting the first). -/
def prompt_agente_produtos_def2 (question context : String) : String :=
  "\nVocê é um especialista na documentação de processos da empresa. \nUtilize exclusivamente as informações fornecidas no contexto abaixo para responder à pergunta.\n\nContexto:\n"
    ++ context
    ++ "\n\nPergunta:\n"
    ++ question
    ++ "\n\nSe a resposta não estiver no contexto, diga \"Informação não encontrada no contexto.\".\nResposta:\n"

/-- The third assignment to `prompt_agente_produtos` (labelled the RH
agent prompt, again assigned to the same name, overwriting the second). -/
def prompt_agente_produtos_def3 (question context : String) : String :=
  "\nVocê é um especialista na documentação de Recursos Humanos da empresa. \nUtilize exclusivamente as informações fornecidas no contexto abaixo para responder à pergunta.\n\nContexto:\n"
    ++ context
    ++ "\n\nPergunta:\n"
    ++ question
    ++ "\n\nSe a resposta não estiver no contexto, diga \"Informação não encontrada no contexto.\".\nResposta:\n"

/-- The value of the name `prompt_agente_produtos` when the agent
functions run: Python executes the three assignments of the prompt cell
top to bottom, so the name is left bound to the third template (the
Recursos Humanos text).  All three agent functions format this one
binding. -/
def prompt_agente_produtos : String → String → String :=
  prompt_agente_produtos_def3

/-- The synthesis prompt of the combiner, from
`prompt_combina = PromptTemplate(...)`, rendered with
`format(question=..., respostas=...)`. -/
def prompt_combina (question respostas : String) : String :=
  "\nVocê é um agente que combina respostas.\n\nDada a pergunta e as respostas dos especialistas, gere uma resposta final, clara e sem repetições.\n\n### Pergunta:\n"
    ++ question
    ++ "\n\n### Respostas dos especialistas:\n"
    ++ respostas
    ++ "\n\n### Resposta final:\n"

/-- Association-list lookup used both for Python dict subscription on
parsed JSON objects and for reading a key of a returned update dict. -/
def assocLookup : List (String × Json) → String → Option Json
  | [], _ => none
  | (k, v) :: rest, key => if k = key then some v else assocLookup rest key

/-- Python subscription `value[key]` with a string key: on a dict it
returns the entry or raises `KeyError`; on any other JSON value it
raises `TypeError`. -/
def jsonSubscript (j : Json) (key : String) : Except PyErr Json :=
  match j with
  | Json.obj kvs =>
    match assocLookup kvs key with
    | some v => Except.ok v
    | none => Except.error (PyErr.keyError key)
  | _ => Except.error PyErr.typeError

/-- The `areas` value inside the notebook's `router` function: the
model response parsed by `json.loads`, with the bare fallback
`\x7b"dominios": []\x7d` when (and only when) `json.loads` raises
`JSONDecodeError` — the only exception the `try/except` catches. -/
def routerAreas (env : Env) (st : GraphState) : Json :=
  match env.json_loads (env.llm (prompt_orquestrador st.question)) with
  | Except.ok j => j
  | Except.error _ => Json.obj [("dominios", Json.arr [])]

/-- The notebook's `router` node.  The first component is the `areas`
value passed to `print(areas)` (executed before the return expression,
so it is observable on every path that reaches the return); the second
is the returned update dict `\x7b"routes": areas["dominios"]\x7d`, or the
exception raised by the subscription `areas["dominios"]` when `areas`
is not a dict containing that key. -/
def router (env : Env) (st : GraphState) :
    Json × Except PyErr (List (String × Json)) :=
  (routerAreas env st,
   match jsonSubscript (routerAreas env st) "dominios" with
   | Except.ok doms => Except.ok [("routes", doms)]
   | Except.error e => Except.error e)

/-- The notebook's `agente_processos` node: it calls the free name
`get_retriever()` (raising `NameError` when, as at the notebook's
module scope, that name is unbound), joins the retrieved
`page_content` strings with a blank line, formats the single template
bound to `prompt_agente_produtos`, invokes the llm once and returns
`state.get("respostas", []) + [response.content]`. -/
def agente_processos (env : Env) (st : GraphState) :
    Except PyErr (List String) :=
  match env.get_retriever with
  | none => Except.error (PyErr.nameError "get_retriever")
  | some gr =>
    Except.ok (st.respostas ++
      [env.llm (prompt_agente_produtos st.question
        (String.intercalate "\n\n" (gr st.question)))])

/-- The notebook's `agente_produtos` node; its body is literally
identical to `agente_processos` (same free `get_retriever()` call,
same `prompt_agente_produtos` template). -/
def agente_produtos (env : Env) (st : GraphState) :
    Except PyErr (List String) :=
  match env.get_retriever with
  | none => Except.error (PyErr.nameError "get_retriever")
  | some gr =>
    Except.ok (st.respostas ++
      [env.llm (prompt_agente_produtos st.question
        (String.intercalate "\n\n" (gr st.question)))])

/-- The notebook's `agente_rh` node; again the identical body. -/
def agente_rh (env : Env) (st : GraphState) :
    Except PyErr (List String) :=
  match env.get_retriever with
  | none => Except.error (PyErr.nameError "get_retriever")
  | some gr =>
    Except.ok (st.respostas ++
      [env.llm (prompt_agente_produtos st.question
        (String.intercalate "\n\n" (gr st.question)))])

/-- The notebook's `combina` node: joins `state["respostas"]` with a
blank line, formats `prompt_combina` and returns the llm response
(stored under the update key `"answer"` by the engine below). -/
def combina (env : Env) (st : GraphState) : String :=
  env.llm (prompt_combina st.question (String.intercalate "\n\n" st.respostas))

/-- The path map of `graph.add_conditional_edges("router", lambda x:
x["routes"], ...)`, from the notebook's graph-construction cell. -/
def conditionalPathMap : List (String × String) :=
  [("produtos", "produtos"), ("processos", "processos"), ("rh", "rh")]

/-- The unconditional edges of the graph, from the `graph.add_edge`
calls: the entry edge into the router, the three specialist-to-combina
edges (the only edges into `combina`) and the terminal edge. -/
def graphEdges : List (String × String) :=
  [("START", "router"), ("produtos", "combina"), ("processos", "combina"),
   ("rh", "combina"), ("combina", "END")]

/-- The closed domain set of the deployment: the keys of the router's
path map, which are also the three specialist node names. -/
def closedDomains : List String := ["produtos", "processos", "rh"]

/-- Reading the route value produced by the router as a list of node
names, as the conditional-edge dispatch iterates it: a JSON array of
strings gives the names, anything else is a type error. -/
def jsonStrList : List Json → Except PyErr (List String)
  | [] => Except.ok []
  | Json.str s :: rest =>
    match jsonStrList rest with
    | Except.ok ss => Except.ok (s :: ss)
    | Except.error e => Except.error e
  | _ :: _ => Except.error PyErr.typeError

/-- Route value to scheduled names, first step of the fan-out. -/
def routesToNames : Json → Except PyErr (List String)
  | Json.arr xs => jsonStrList xs
  | _ => Except.error PyErr.typeError

/-- Modelled from the spec: the dispatch of `add_conditional_edges`
(the graph library's branch resolution is external code, absent from
`src/`).  The spec (§4.1, §7 UnknownDomainError) says an identifier
outside the closed set "is dropped silently", so the fan-out keeps
exactly the returned names that have an entry in the path map built in
the notebook. -/
def scheduled (names : List String) : List String :=
  names.filter (fun n => decide (n ∈ conditionalPathMap.map Prod.fst))

/-- The node-name-to-function table of the `graph.add_node` calls. -/
def nodeFun (n : String) : Env → GraphState → Except PyErr (List String) :=
  if n = "produtos" then agente_produtos
  else if n = "processos" then agente_processos
  else if n = "rh" then agente_rh
  else fun _ _ => Except.error (PyErr.keyError n)

/-- Modelled from the spec: execution of the scheduled specialist
nodes (the graph engine is external code).  Per §4.4/§5 every scheduled
specialist runs and appends its entry to `respostas` before the join,
the inter-specialist order being unspecified; this model runs them in
the deterministic schedule given by the routes order (each specialist's
llm call depends only on the question, never on `respostas`, so any
schedule yields the same multiset of entries).  A specialist raising is
fatal to the run (§4.4 failure semantics). -/
def runAgents (env : Env) : List String → GraphState → Except PyErr GraphState
  | [], st => Except.ok st
  | d :: ds, st =>
    match nodeFun d env st with
    | Except.error e => Except.error e
    | Except.ok rs => runAgents env ds { st with respostas := rs }

/-- The observable outcome of one completed graph run: the node names
executed in order, the route value the router produced, and the final
state returned by `graph_compilado.invoke`. -/
structure RunOk where
  trace : List String
  routes : Json
  final : GraphState

/-- Modelled from the spec: one run of `graph_compilado.invoke` (the
langgraph execution engine is external code, absent from `src/`).  Per
the notebook's wiring and §4.4 of the spec: the router runs first and
its route snapshot is taken before fan-out; the specialist node of
every scheduled name runs; `combina` is a join reached only over the
edges from the specialist nodes (see `graphEdges`), so when no
specialist is scheduled the run terminates after the router with the
state unchanged, and otherwise `combina` runs once after all scheduled
specialists and writes the `answer` key, after which the graph ends. -/
def runGraph (env : Env) (init : GraphState) : Except PyErr RunOk :=
  match (router env init).2 with
  | Except.error e => Except.error e
  | Except.ok upd =>
    match routesToNames ((assocLookup upd "routes").getD Json.null) with
    | Except.error e => Except.error e
    | Except.ok names =>
      match runAgents env (scheduled names) init with
      | Except.error e => Except.error e
      | Except.ok st1 =>
        match scheduled names with
        | [] =>
          Except.ok ⟨["router"], (assocLookup upd "routes").getD Json.null, st1⟩
        | d :: ds =>
          Except.ok ⟨"router" :: ((d :: ds) ++ ["combina"]),
            (assocLookup upd "routes").getD Json.null,
            { st1 with answer := combina env st1 }⟩

/-- A deterministic stub environment: the model always answers `resp`,
whose `json.loads` outcome is `parsed` (chosen below to match Python's
`json.loads` on each concrete response string), and the free name
`get_retriever` is bound to `gr` (at the notebook's module scope,
`moduleGetRetriever = none`). -/
def stubEnv (resp : String) (parsed : Except Unit Json)
    (gr : Option (String → List String)) : Env :=
  { llm := fun _ => resp
    json_loads := fun s => if s = resp then parsed else Except.error ()
    get_retriever := gr }

/-- The initial state of the notebook's test cell `estado_inicial`. -/
def init0 : GraphState :=
  { question := "Qual a metodologia de desenvolvimento usada pela coordenadoria de informatica?"
    respostas := []
    answer := "" }

/-- Model response `\x7b\x7d`: valid JSON (so `json.loads` succeeds with the
empty object), but without the key `dominios`. -/
def envBadShape : Env :=
  stubEnv "\x7b\x7d" (Except.ok (Json.obj [])) moduleGetRetriever

/-- Model response that is not valid JSON at all, so `json.loads`
raises `JSONDecodeError`. -/
def envNotJson : Env :=
  stubEnv "Não sei classificar essa pergunta." (Except.error ()) moduleGetRetriever

/-- Model response `\x7b"dominios": ["financeiro"]\x7d`: valid JSON whose
single domain identifier is outside the closed set. -/
def envUnknownDomain : Env :=
  stubEnv "\x7b\"dominios\": [\"financeiro\"]\x7d"
    (Except.ok (Json.obj [("dominios", Json.arr [Json.str "financeiro"])]))
    moduleGetRetriever

/-- Model response `\x7b"dominios": []\x7d`: a well-formed classification
that matches no domain. -/
def envNoDomains : Env :=
  stubEnv "\x7b\"dominios\": []\x7d"
    (Except.ok (Json.obj [("dominios", Json.arr [])]))
    moduleGetRetriever

/-- Model response `\x7b"dominios": ["rh"]\x7d` under the notebook's module
scope, where `get_retriever` is unbound. -/
def envRhRoute : Env :=
  stubEnv "\x7b\"dominios\": [\"rh\"]\x7d"
    (Except.ok (Json.obj [("dominios", Json.arr [Json.str "rh"])]))
    moduleGetRetriever

/-- The response string of `envRhRoute`, also the text every llm call
of `envRhRouteBound` returns. -/
def respRh : String := "\x7b\"dominios\": [\"rh\"]\x7d"

/-- The same routing as `envRhRoute`, but in a hypothetical scope where
the free name `get_retriever` is bound to a deterministic two-passage
retriever, so that a run can get past the specialist. -/
def envRhRouteBound : Env :=
  stubEnv respRh
    (Except.ok (Json.obj [("dominios", Json.arr [Json.str "rh"])]))
    (some (fun _ => ["primeira passagem", "segunda passagem"]))

/-- The outcome of one run under `envRhRouteBound` and `init0`: the rh
specialist and then `combina` execute after the router, and every llm
call of the stub returns `respRh`. -/
def runOkRh : RunOk :=
  ⟨["router", "rh", "combina"], Json.arr [Json.str "rh"],
   { question := init0.question, respostas := [respRh], answer := respRh }⟩

/-- Every name kept by the conditional fan-out has a path-map entry, so
it lies in the closed domain set. -/
theorem scheduled_mem : ∀ (names : List String) (n : String),
    n ∈ scheduled names → n ∈ closedDomains := by
  intro names n h
  unfold scheduled at h
  have h2 := (List.mem_filter.mp h).2
  exact of_decide_eq_true h2

/-- The name `combina` is never among the scheduled specialist names. -/
theorem scheduled_count_combina : ∀ names : List String,
    (scheduled names).count "combina" = 0 := by
  intro names
  refine List.count_eq_zero.mpr ?_
  intro hm
  have h := scheduled_mem names "combina" hm
  simp [closedDomains] at h

/-- C1: the claim demands that each specialist render its own domain's
grounding template, but the notebook assigns all three templates to the
one name `prompt_agente_produtos`, whose final binding is the Recursos
Humanos text; every specialist — here shown for `agente_produtos`, with
`agente_processos` behaving identically — renders that third template,
which differs from the produtos and processos templates. -/
theorem c1_template_collapse : ∀ (lm : String → String)
    (jl : String → Except Unit Json) (f : String → List String)
    (st : GraphState),
    agente_produtos ⟨lm, jl, some f⟩ st =
      Except.ok (st.respostas ++ [lm (prompt_agente_produtos_def3 st.question
        (String.intercalate "\n\n" (f st.question)))]) ∧
    agente_processos ⟨lm, jl, some f⟩ st = agente_produtos ⟨lm, jl, some f⟩ st ∧
    prompt_agente_produtos = prompt_agente_produtos_def3 ∧
    (prompt_agente_produtos_def3 "q" "c" == prompt_agente_produtos_def1 "q" "c") = false ∧
    (prompt_agente_produtos_def3 "q" "c" == prompt_agente_produtos_def2 "q" "c") = false :=
  fun _lm _jl _f _st => ⟨rfl, rfl, rfl, by decide, by decide⟩

/-- C2 counterexample: the model response `\x7b\x7d` is valid JSON without
the key `dominios`, so it is not parseable as the expected structure,
yet the router raises a `KeyError` past the router node instead of
returning an empty route set. -/
theorem c2_counterexample :
    (router envBadShape init0).2 = Except.error (PyErr.keyError "dominios") := rfl

/-- C2 amended: only when the model response fails JSON parsing
altogether does the router fail soft — it then returns the update
`routes = []` without raising, and the fallback dict it prints makes
the failure observable. -/
theorem c2_amended : ∀ (env : Env) (st : GraphState),
    env.json_loads (env.llm (prompt_orquestrador st.question)) = Except.error () →
    router env st =
      (Json.obj [("dominios", Json.arr [])], Except.ok [("routes", Json.arr [])]) := by
  intro env st h
  have ha : routerAreas env st = Json.obj [("dominios", Json.arr [])] := by
    unfold routerAreas
    rw [h]
  unfold router
  rw [ha]
  rfl

/-- C2 witness: the amended statement at the concrete unparseable
response of `envNotJson`. -/
theorem c2_amended_witness :
    router envNotJson init0 =
      (Json.obj [("dominios", Json.arr [])], Except.ok [("routes", Json.arr [])]) :=
  c2_amended envNotJson init0 rfl

/-- C3 counterexample: for the response `\x7b"dominios": ["financeiro"]\x7d`
the router returns the route set containing `financeiro`, an identifier
outside the closed domain set — it does not drop unknown identifiers. -/
theorem c3_counterexample :
    (router envUnknownDomain init0).2 =
      Except.ok [("routes", Json.arr [Json.str "financeiro"])] ∧
    closedDomains.contains "financeiro" = false :=
  ⟨rfl, rfl⟩

/-- C3 amended: the router passes the parsed `dominios` value through
verbatim, without filtering; unknown identifiers are only dropped at
the conditional fan-out, whose path map covers exactly the closed
domain set, so the scheduled specialist set — not the router's returned
route set — is always a subset of the closed domain set. -/
theorem c3_amended :
    (∀ (env : Env) (st : GraphState) (v : Json),
      env.json_loads (env.llm (prompt_orquestrador st.question)) =
        Except.ok (Json.obj [("dominios", v)]) →
      (router env st).2 = Except.ok [("routes", v)]) ∧
    ∀ (names : List String) (n : String), n ∈ scheduled names → n ∈ closedDomains := by
  constructor
  · intro env st v h
    have ha : routerAreas env st = Json.obj [("dominios", v)] := by
      unfold routerAreas
      rw [h]
    unfold router
    rw [ha]
    rfl
  · exact scheduled_mem

/-- C3 witness: the amended statement at the concrete response of
`envUnknownDomain` and at the scheduled name `rh`. -/
theorem c3_amended_witness :
    (router envUnknownDomain init0).2 =
      Except.ok [("routes", Json.arr [Json.str "financeiro"])] ∧
    "rh" ∈ closedDomains :=
  ⟨c3_amended.1 envUnknownDomain init0 (Json.arr [Json.str "financeiro"]) rfl,
   c3_amended.2 ["rh"] "rh" (by decide)⟩

/-- C4: at the failing input — the notebook's initial state with the
model classifying the question into `["rh"]` — the run aborts with the
`NameError` raised by the scheduled specialist's call to the unbound
free name `get_retriever`, so `respostas` never receives its `|D| = 1`
entries and no join is reached. -/
theorem c4_run_aborts :
    runGraph envRhRoute init0 = Except.error (PyErr.nameError "get_retriever") := rfl

/-- C5 counterexample: with the route set empty the run completes, but
`combina` is never executed (the trace is just the router) and the
final answer is the initial empty string, with no "not found"
indication. -/
theorem c5_counterexample :
    runGraph envNoDomains init0 = Except.ok ⟨["router"], Json.arr [], init0⟩ ∧
    (["router"] : List String).contains "combina" = false ∧
    init0.answer = "" :=
  ⟨rfl, rfl, rfl⟩

/-- C5 amended: when the classification yields an empty domain list the
run still terminates without failing, but no specialist is scheduled
and `combina` — reachable only over the edges from the specialist
nodes — never executes, so the state (its `answer` included) is
returned unchanged. -/
theorem c5_amended : ∀ (env : Env) (init : GraphState),
    env.json_loads (env.llm (prompt_orquestrador init.question)) =
      Except.ok (Json.obj [("dominios", Json.arr [])]) →
    runGraph env init = Except.ok ⟨["router"], Json.arr [], init⟩ ∧
    (["router"] : List String).contains "combina" = false := by
  intro env init h
  have ha : routerAreas env init = Json.obj [("dominios", Json.arr [])] := by
    unfold routerAreas
    rw [h]
  have hr : router env init =
      (Json.obj [("dominios", Json.arr [])], Except.ok [("routes", Json.arr [])]) := by
    unfold router
    rw [ha]
    rfl
  constructor
  · unfold runGraph
    rw [hr]
    rfl
  · rfl

/-- C5 witness: the amended statement at the concrete empty
classification of `envNoDomains`. -/
theorem c5_amended_witness :
    runGraph envNoDomains init0 = Except.ok ⟨["router"], Json.arr [], init0⟩ ∧
    (["router"] : List String).contains "combina" = false :=
  c5_amended envNoDomains init0 rfl

/-- C6 counterexample: in the run whose route set is empty, `combina`
executes zero times, not exactly once. -/
theorem c6_counterexample :
    runGraph envNoDomains init0 = Except.ok ⟨["router"], Json.arr [], init0⟩ ∧
    (["router"] : List String).count "combina" = 0 :=
  ⟨rfl, rfl⟩

/-- C6 amended: in every run that completes, either no specialist was
scheduled and the graph terminated right after the router with
`combina` never executing, or `combina` executed exactly once, after
all the scheduled specialists (runs in which a scheduled specialist
raises abort before reaching `combina`). -/
theorem c6_amended : ∀ (env : Env) (init : GraphState) (r : RunOk),
    runGraph env init = Except.ok r →
    r.trace = ["router"] ∨
    ∃ ns : List String, 0 < ns.length ∧ r.trace = "router" :: (ns ++ ["combina"]) ∧
      ns.count "combina" = 0 := by
  intro env init r h
  unfold runGraph at h
  split at h
  · exact Except.noConfusion h
  · split at h
    · exact Except.noConfusion h
    · split at h
      · exact Except.noConfusion h
      · split at h
        · injection h with h1
          subst h1
          left
          rfl
        · rename_i d ds heq
          injection h with h1
          subst h1
          right
          refine ⟨d :: ds, Nat.succ_pos ds.length, rfl, ?_⟩
          rw [← heq]
          exact scheduled_count_combina _

/-- C6 witness: the amended statement at the completed run of
`envRhRouteBound`, whose trace is router, rh, combina. -/
theorem c6_amended_witness :
    runOkRh.trace = ["router"] ∨
    ∃ ns : List String, 0 < ns.length ∧
      runOkRh.trace = "router" :: (ns ++ ["combina"]) ∧ ns.count "combina" = 0 :=
  c6_amended envRhRouteBound init0 runOkRh rfl

/-- C7: the claim describes per-domain retrieval with the domain's own
retriever and grounding template, but every specialist raises
`NameError` on its very first step — the call to the unbound free name
`get_retriever` — under the notebook's module scope; and even with that
name bound, all three specialists are extensionally identical (one
shared retriever call and one shared template), so none is bound to its
own domain's retriever or template. -/
theorem c7_no_domain_binding : ∀ (lm : String → String)
    (jl : String → Except Unit Json) (f : String → List String)
    (st : GraphState),
    agente_produtos ⟨lm, jl, moduleGetRetriever⟩ st =
      Except.error (PyErr.nameError "get_retriever") ∧
    agente_processos ⟨lm, jl, moduleGetRetriever⟩ st =
      Except.error (PyErr.nameError "get_retriever") ∧
    agente_rh ⟨lm, jl, moduleGetRetriever⟩ st =
      Except.error (PyErr.nameError "get_retriever") ∧
    agente_produtos ⟨lm, jl, some f⟩ st = agente_rh ⟨lm, jl, some f⟩ st ∧
    agente_produtos ⟨lm, jl, some f⟩ st = agente_processos ⟨lm, jl, some f⟩ st :=
  fun _lm _jl _f _st => ⟨rfl, rfl, rfl, rfl, rfl⟩

/-- C8: with the language model, the JSON parser and the retriever
replaced by stubs of identical behavior, two complete runs of the
graph from the same initial state coincide — in particular in their
route value and their final answer: the orchestration introduces no
nondeterminism of its own. -/
theorem c8_deterministic : ∀ (env1 env2 : Env) (init : GraphState),
    (∀ s, env1.llm s = env2.llm s) →
    (∀ s, env1.json_loads s = env2.json_loads s) →
    env1.get_retriever = env2.get_retriever →
    runGraph env1 init = runGraph env2 init ∧
    (runGraph env1 init).map RunOk.routes = (runGraph env2 init).map RunOk.routes ∧
    (runGraph env1 init).map (fun r => r.final.answer) =
      (runGraph env2 init).map (fun r => r.final.answer) := by
  intro env1 env2 init h1 h2 h3
  obtain ⟨l1, j1, g1⟩ := env1
  obtain ⟨l2, j2, g2⟩ := env2
  have e1 : l1 = l2 := funext h1
  have e2 : j1 = j2 := funext h2
  have e3 : g1 = g2 := h3
  subst e1
  subst e2
  subst e3
  exact ⟨rfl, rfl, rfl⟩

/-- C8 witness: the determinism statement applied to two copies of the
concrete stub `envNoDomains`. -/
theorem c8_deterministic_witness :
    runGraph envNoDomains init0 = runGraph envNoDomains init0 ∧
    (runGraph envNoDomains init0).map RunOk.routes =
      (runGraph envNoDomains init0).map RunOk.routes ∧
    (runGraph envNoDomains init0).map (fun r => r.final.answer) =
      (runGraph envNoDomains init0).map (fun r => r.final.answer) :=
  c8_deterministic envNoDomains envNoDomains init0 (fun _ => rfl) (fun _ => rfl) rfl

/-- C9: the free name `get_retriever` is not bound at module scope (it
is only a method of `VectorStoreManager`), and therefore every one of
the three specialist node functions, on every input state, reaches the
`NameError` branch of its `get_retriever()` call. -/
theorem c9_unbound_get_retriever :
    (moduleScopeNames.contains "get_retriever" = false) ∧
    (vectorStoreManagerMethods.contains "get_retriever" = true) ∧
    ∀ (lm : String → String) (jl : String → Except Unit Json) (st : GraphState),
      agente_produtos ⟨lm, jl, moduleGetRetriever⟩ st =
        Except.error (PyErr.nameError "get_retriever") ∧
      agente_processos ⟨lm, jl, moduleGetRetriever⟩ st =
        Except.error (PyErr.nameError "get_retriever") ∧
      agente_rh ⟨lm, jl, moduleGetRetriever⟩ st =
        Except.error (PyErr.nameError "get_retriever") :=
  ⟨by decide, by decide, fun _lm _jl _st => ⟨rfl, rfl, rfl⟩⟩

/-- C10: the declared run-state fields are exactly question, respostas
and answer; `routes` is not among them; and every successful router
return writes exactly the one key `routes` — so the routing decision is
never stored under a declared field of the typed run state. -/
theorem c10_routes_key_outside_state :
    graphStateFields = ["question", "respostas", "answer"] ∧
    graphStateFields.contains "routes" = false ∧
    ∀ (env : Env) (st : GraphState) (upd : List (String × Json)),
      (router env st).2 = Except.ok upd → upd.map Prod.fst = ["routes"] := by
  refine ⟨rfl, rfl, ?_⟩
  intro env st upd h
  have h2 : (match jsonSubscript (routerAreas env st) "dominios" with
    | Except.ok doms => Except.ok [("routes", doms)]
    | Except.error e => (Except.error e : Except PyErr (List (String × Json)))) =
      Except.ok upd := h
  split at h2
  · injection h2 with h3
    rw [← h3]
    rfl
  · exact Except.noConfusion h2

/-- C10 witness: the router's key list at the concrete run of
`envNoDomains`. -/
theorem c10_witness :
    ([("routes", Json.arr [])] : List (String × Json)).map Prod.fst = ["routes"] :=
  c10_routes_key_outside_state.2.2 envNoDomains init0 [("routes", Json.arr [])] rfl
